import Mathlib

/-!
Shallow embedding of `src/streamlit_app.py` (Campaign Budget Allocation
Advisor).  The pipeline in the source is:

  1. read the CSV (skiprows=2) into `df_raw`
  2. `df = df_raw[~df_raw['Campaign'].str.contains("Total", na=False)]`
  3. clean the six numeric-looking columns (replace "--" and "%" by the
     empty string, strip, `pd.to_numeric(errors='coerce')`)
  4. `df.dropna(subset=['Conversions','Cost / conv.','CTR','Budget'])`,
     reporting `before_drop - after_drop` dropped rows
  5. benchmark: the first `df_raw` row with Campaign == 'Total: Account',
     or column means of the cleaned frame when absent
  6. `get_recommendation` per row, a four-branch decision tree.

Numeric cells are modelled as rationals; a pandas NaN is modelled as
`Option.none` (every comparison against NaN in numpy is false, NaN
propagates through arithmetic, and `bool(nan)` is true in Python — each
of those facts is encoded at its use site below).  Column presence is
modelled for the two columns whose absence the source survives or
handles specially ('Campaign' raises a KeyError at line 15, 'Clicks' is
guarded by `if col in df.columns` and `row.get('Clicks', 0)`); the other
five columns are taken as present.
-/

namespace CampaignApp

section

attribute [local semireducible] Rat.add Rat.mul Rat.sub Rat.inv

/-- Is `p` a prefix of the second list? -/
def isPrefixList (p s : List Char) : Bool :=
  match p, s with
  | [], _ => true
  | _ :: _, [] => false
  | c :: ps, d :: cs => c == d && isPrefixList ps cs

/-- Replace every occurrence of a nonempty pattern, fuel-bounded so that
the recursion is structural; `fuel ≥ s.length` computes the full result. -/
def replaceFuel (pat rep : List Char) : ℕ → List Char → List Char
  | 0, s => s
  | _ + 1, [] => []
  | fuel + 1, c :: cs =>
      if isPrefixList pat (c :: cs) && !pat.isEmpty then
        rep ++ replaceFuel pat rep fuel ((c :: cs).drop pat.length)
      else
        c :: replaceFuel pat rep fuel cs

/-- `str.replace(pat, rep)` on character lists. -/
def replaceList (s pat rep : List Char) : List Char :=
  replaceFuel pat rep s.length s

/-- The whitespace stripped by `str.strip()`. -/
def isSpaceChar (c : Char) : Bool :=
  c == ' ' || c == '\t' || c == '\n' || c == '\r'

/-- `str.strip()` on a character list. -/
def trimList (s : List Char) : List Char :=
  ((s.dropWhile isSpaceChar).reverse.dropWhile isSpaceChar).reverse

/-- `s.str.replace('--','').str.replace('%','').str.strip()` from the
cleaning loop (lines 22-28 of the source). -/
def cleanCell (s : String) : String :=
  ⟨trimList (replaceList (replaceList s.data "--".data "".data) "%".data "".data)⟩

/-- `str.replace('%','')` alone, as applied to the total row's percentage
columns. -/
def stripPct (s : String) : String :=
  ⟨replaceList s.data "%".data "".data⟩

/-- Digit accumulator for the decimal parser. -/
def natOfDigits (cs : List Char) : ℕ :=
  cs.foldl (fun a c => a * 10 + (c.toNat - 48)) 0

/-- Embedding of `pd.to_numeric(·, errors='coerce')` on a text cell: an
optional sign, an integer part, an optional fractional part, at least one
digit overall; anything else coerces to missing (NaN). -/
def parseDec (s : String) : Option ℚ :=
  let cs := s.data
  let signAndRest : ℚ × List Char :=
    match cs with
    | '-' :: t => (-1, t)
    | '+' :: t => (1, t)
    | t => (1, t)
  let sign := signAndRest.1
  let rest := signAndRest.2
  let intPart := rest.takeWhile (fun c => c.isDigit)
  let rest2 := rest.dropWhile (fun c => c.isDigit)
  match rest2 with
  | [] =>
      if intPart.isEmpty then none
      else some (sign * (natOfDigits intPart : ℚ))
  | '.' :: fracPart =>
      if fracPart.all (fun c => c.isDigit) && !(intPart.isEmpty && fracPart.isEmpty) then
        some (sign * ((natOfDigits intPart : ℚ) +
          (natOfDigits fracPart : ℚ) / (10 ^ fracPart.length)))
      else none
  | _ => none

/-- Clean then coerce one cell; a raw NaN cell stays missing (in pandas it
becomes the string "nan", which `pd.to_numeric` maps back to NaN). -/
def cleanParse (cell : Option String) : Option ℚ :=
  match cell with
  | none => none
  | some s => parseDec (cleanCell s)

/-- Case-sensitive substring test, embedding `str.contains(pat)` (the
pattern "Total" has no regex metacharacters). -/
def containsList (pat : List Char) : List Char → Bool
  | [] => isPrefixList pat []
  | c :: cs => isPrefixList pat (c :: cs) || containsList pat cs

/-- Case-sensitive substring test on strings. -/
def strContains (s pat : String) : Bool :=
  containsList pat.data s.data

/-- `df_raw['Campaign'].str.contains("Total", na=False)`: a NaN campaign
counts as not containing the marker. -/
def campaignContainsTotal (c : Option String) : Bool :=
  match c with
  | none => false
  | some s => strContains s "Total"

/-- One row of the uploaded table after `read_csv`; numeric-looking fields
are still text, any cell may be NaN. -/
structure RawRow where
  campaign : Option String
  conversions : Option String
  costPerConv : Option String
  ctr : Option String
  clicks : Option String
  convRate : Option String
  budget : Option String
deriving DecidableEq, Repr

/-- The uploaded table.  `hasCampaign` / `hasClicks` model whether those
two columns exist in the header (see the module comment). -/
structure RawTable where
  hasCampaign : Bool
  hasClicks : Bool
  rows : List RawRow
deriving DecidableEq, Repr

/-- A row of `df` after the cleaning loop: every numeric column coerced,
possibly to NaN. -/
structure CleanRow where
  campaign : Option String
  conversions : Option ℚ
  costPerConv : Option ℚ
  ctr : Option ℚ
  clicks : Option ℚ
  convRate : Option ℚ
  budget : Option ℚ
deriving DecidableEq, Repr

/-- The cleaning loop (source lines 20-29) applied to one row; 'Clicks' is
cleaned only when the column exists (`if col in df.columns`). -/
def cleanRow (hasClicks : Bool) (r : RawRow) : CleanRow :=
  { campaign := r.campaign
    conversions := cleanParse r.conversions
    costPerConv := cleanParse r.costPerConv
    ctr := cleanParse r.ctr
    clicks := if hasClicks then cleanParse r.clicks else none
    convRate := cleanParse r.convRate
    budget := cleanParse r.budget }

/-- A row surviving `dropna(subset=['Conversions','Cost / conv.','CTR',
'Budget'])`: those four fields are bare rationals; Clicks and Conv. rate
may still be NaN. -/
structure NormRow where
  campaign : Option String
  conversions : ℚ
  costPerConv : ℚ
  ctr : ℚ
  clicks : Option ℚ
  convRate : Option ℚ
  budget : ℚ
deriving DecidableEq, Repr

/-- The `dropna` subset test: the four mandatory metrics are non-missing. -/
def mandatoryOk (c : CleanRow) : Bool :=
  c.conversions.isSome && c.costPerConv.isSome && c.ctr.isSome && c.budget.isSome

/-- Packaging of a cleaned row into a `NormRow`, defined exactly when the
four mandatory metrics are present. -/
def toNorm (c : CleanRow) : Option NormRow :=
  match c.conversions, c.costPerConv, c.ctr, c.budget with
  | some conv, some cpa, some ctr, some budget =>
      some { campaign := c.campaign, conversions := conv, costPerConv := cpa,
             ctr := ctr, clicks := c.clicks, convRate := c.convRate, budget := budget }
  | _, _, _, _ => none

/-- The Row Normalizer (source lines 14-34): filter out "Total" rows,
clean, drop rows missing a mandatory metric; also returns the reported
drop count `before_drop - after_drop`. -/
def normalize (t : RawTable) : List NormRow × ℕ :=
  let filtered := t.rows.filter (fun r => !campaignContainsTotal r.campaign)
  let cleaned := filtered.map (cleanRow t.hasClicks)
  let kept := cleaned.filterMap toNorm
  (kept, cleaned.length - kept.length)

/-- The four account-level reference values; any of them may be NaN. -/
structure Benchmark where
  avgConversions : Option ℚ
  avgCpa : Option ℚ
  avgCtr : Option ℚ
  avgConvRate : Option ℚ
deriving DecidableEq, Repr

/-- `pd.to_numeric(avg_row[col], errors='coerce').values[0]` — the total
row's Conversions and Cost / conv. are parsed with no cleaning at all. -/
def parseRawCell (c : Option String) : Option ℚ :=
  match c with
  | none => none
  | some s => parseDec s

/-- Total-row CTR / Conv. rate parse: only the percent sign is stripped
(`.astype(str).str.replace('%','')`), no "--" removal, no trim. -/
def parsePctCell (c : Option String) : Option ℚ :=
  match c with
  | none => none
  | some s => parseDec (stripPct s)

/-- First raw row whose Campaign cell equals 'Total: Account' exactly
(`df_raw[df_raw['Campaign'] == 'Total: Account']`, then `.values[0]`);
a NaN campaign compares unequal. -/
def findTotalRow (rows : List RawRow) : Option RawRow :=
  (rows.filter (fun r => decide (r.campaign = some "Total: Account"))).head?

/-- `mean()` of a pandas column with no NaNs: NaN on an empty frame. -/
def meanQ (xs : List ℚ) : Option ℚ :=
  if xs.length = 0 then none else some (xs.sum / xs.length)

/-- `mean()` of a column that may contain NaNs: pandas skips them. -/
def meanOpt (xs : List (Option ℚ)) : Option ℚ :=
  meanQ (xs.filterMap id)

/-- Benchmark from the 'Total: Account' row (source lines 48-51). -/
def benchmarkOfTotalRow (row : RawRow) : Benchmark :=
  { avgConversions := parseRawCell row.conversions
    avgCpa := parseRawCell row.costPerConv
    avgCtr := parsePctCell row.ctr
    avgConvRate := (parsePctCell row.convRate).map (fun q => q / 100) }

/-- Fallback benchmark: column means of the normalized frame (source
lines 43-46); Conv. rate mean divided by 100. -/
def benchmarkOfAverages (normed : List NormRow) : Benchmark :=
  { avgConversions := meanQ (normed.map (fun r => r.conversions))
    avgCpa := meanQ (normed.map (fun r => r.costPerConv))
    avgCtr := meanQ (normed.map (fun r => r.ctr))
    avgConvRate := (meanOpt (normed.map (fun r => r.convRate))).map (fun q => q / 100) }

/-- The Benchmark Resolver (source lines 40-51). -/
def resolveBenchmark (t : RawTable) (normed : List NormRow) : Benchmark :=
  match findTotalRow t.rows with
  | some row => benchmarkOfTotalRow row
  | none => benchmarkOfAverages normed

/-- `x < y` where `y` may be NaN: numpy comparisons against NaN are false. -/
def ltOpt (x : ℚ) (y : Option ℚ) : Bool :=
  match y with
  | some v => decide (x < v)
  | none => false

/-- `x > y` where `y` may be NaN. -/
def gtOpt (x : ℚ) (y : Option ℚ) : Bool :=
  match y with
  | some v => decide (v < x)
  | none => false

/-- Branch 2's guard `abs(conv - avg) / avg <= 0.05`.  When `avg` is NaN
the quotient is NaN; when `avg` is zero the numpy quotient is inf (or NaN
for `0/0`) without raising; in every such case the `<=` is false. -/
def nearAvgTest (conv : ℚ) (avg : Option ℚ) : Bool :=
  match avg with
  | none => false
  | some a => if a = 0 then false else decide (|conv - a| / a ≤ 5 / 100)

/-- Branch 1's compound condition (source line 63). -/
def branch1Cond (b : Benchmark) (r : NormRow) : Bool :=
  ltOpt r.conversions b.avgConversions && gtOpt r.costPerConv b.avgCpa &&
    ltOpt r.ctr b.avgCtr

/-- Branch 3's compound condition (source line 80). -/
def branch3Cond (b : Benchmark) (r : NormRow) : Bool :=
  gtOpt r.conversions b.avgConversions && ltOpt r.costPerConv b.avgCpa &&
    gtOpt r.ctr b.avgCtr

/-- Round half to even to an integer, the rounding used by Python's
`round` (and numpy's) on a value that is exactly representable. -/
def roundHalfEvenInt (x : ℚ) : ℤ :=
  let n := Int.floor x
  let frac := x - n
  if frac < 1 / 2 then n
  else if 1 / 2 < frac then n + 1
  else if n % 2 = 0 then n else n + 1

/-- `round(x, 2)`. -/
def round2 (x : ℚ) : ℚ :=
  (roundHalfEvenInt (x * 100) : ℚ) / 100

/-- One output record of `get_recommendation`. -/
structure Recommendation where
  action : String
  reason : String
  expectedConversions : Option ℚ
  suggestedBudget : ℚ
deriving DecidableEq, Repr

/-- `row.get('Clicks', 0) or 0`: a missing column gives the default 0; a
NaN cell survives, because `bool(nan)` is true in Python so `or` keeps it;
an actual 0.0 is falsy and is replaced by the (numerically equal) int 0. -/
def clicksValue (hasClicks : Bool) (clicks : Option ℚ) : Option ℚ :=
  if hasClicks then clicks else some 0

/-- `round(clicks * avg_conv_rate, 2)`: NaN in either factor propagates. -/
def expectedConv (hasClicks : Bool) (clicks : Option ℚ) (rate : Option ℚ) : Option ℚ :=
  match clicksValue hasClicks clicks, rate with
  | some c, some q => some (round2 (c * q))
  | _, _ => none

/-- The Recommendation Classifier, `get_recommendation` (source lines
54-94), as a function of the row, the benchmark, and whether the Clicks
column exists. -/
def getRecommendation (hasClicks : Bool) (b : Benchmark) (r : NormRow) : Recommendation :=
  let expected := expectedConv hasClicks r.clicks b.avgConvRate
  if branch1Cond b r then
    { action := "🟥 Decrease Budget"
      reason := "Underperforming on all key metrics"
      expectedConversions := expected
      suggestedBudget := round2 (r.budget * (8 / 10)) }
  else if nearAvgTest r.conversions b.avgConversions then
    if gtOpt r.costPerConv b.avgCpa && ltOpt r.ctr b.avgCtr then
      { action := "🟥 Decrease Budget"
        reason := "Avg conversions, high cost, low CTR"
        expectedConversions := expected
        suggestedBudget := round2 (r.budget * (8 / 10)) }
    else if gtOpt r.costPerConv b.avgCpa && gtOpt r.ctr b.avgCtr then
      { action := "🟨 Slight Increase"
        reason := "Avg conversions, good CTR may drive gains"
        expectedConversions := expected
        suggestedBudget := round2 (r.budget * (11 / 10)) }
    else
      { action := "🟥 Decrease Budget"
        reason := "Near-average performance with inefficiencies"
        expectedConversions := expected
        suggestedBudget := round2 (r.budget * (8 / 10)) }
  else if branch3Cond b r then
    { action := "🟩 Increase Budget"
      reason := "High conversions, low cost, high CTR"
      expectedConversions := expected
      suggestedBudget := round2 (r.budget * (12 / 10)) }
  else
    { action := "🟥 Decrease Budget"
      reason := "Performance not clearly above average"
      expectedConversions := expected
      suggestedBudget := round2 (r.budget * (8 / 10)) }

/-- The error surfaced when `df_raw['Campaign']` raises (source line 15,
caught at 115-116). -/
def campaignKeyError : String := "❌ Error processing file: 'Campaign'"

/-- The error surfaced when `df[display_cols]` raises for a missing
Clicks column (source line 105, caught at 115-116). -/
def clicksKeyError : String := "❌ Error processing file: 'Clicks'"

/-- The whole try-block as one run: either a single error message and no
output at all, or the full recommendation table. -/
def processFile (t : RawTable) : Except String (List (NormRow × Recommendation)) :=
  if !t.hasCampaign then
    Except.error campaignKeyError
  else
    let normed := (normalize t).1
    let bench := resolveBenchmark t normed
    let recs := normed.map (fun r => (r, getRecommendation t.hasClicks bench r))
    if !t.hasClicks then Except.error clicksKeyError
    else Except.ok recs

/-- Rounding half-up, as the spec's rounding sentence reads (modelled from
the claim's words, for comparison with `round2`): halves go up. -/
def roundHalfUpInt (x : ℚ) : ℤ :=
  Int.floor (x + 1 / 2)

/-- `round2` as it would be were the rounding half-up. -/
def round2up (x : ℚ) : ℚ :=
  (roundHalfUpInt (x * 100) : ℚ) / 100

/-! Concrete instances used to exhibit counterexamples and witnesses. -/

/-- A well-formed benchmark: avg conversions 100, avg CPA 5, avg CTR 3,
avg conversion rate 2%. -/
def bench1 : Benchmark := ⟨some 100, some 5, some 3, some (2 / 100)⟩

/-- A benchmark whose average-conversions value is zero. -/
def bench0 : Benchmark := ⟨some 0, some 5, some 3, some (2 / 100)⟩

/-- Near-average conversions (98 vs 100) while satisfying all of branch
1's conditions (conv below average, CPA above, CTR below). -/
def recC1 : NormRow := ⟨some "A", 98, 7, 2, some 500, some 4, 1000⟩

/-- Against `bench0`: positive conversions, cheap CPA, high CTR — branch
3's conditions hold. -/
def recC2 : NormRow := ⟨some "B", 10, 2, 4, some 100, some 4, 1000⟩

/-- Budget 5/32 = 0.15625, so `budget * 0.8 = 0.125` exactly (also exact
in IEEE doubles); the record hits branch 1. -/
def recC4 : NormRow := ⟨some "C", 40, 7, 2, some 0, some 4, 5 / 32⟩

/-- A record whose Clicks cell is missing (NaN). -/
def recC5 : NormRow := ⟨some "D", 98, 4, 4, none, some 4, 1000⟩

/-- Near-average conversions with branch 1 failing (CPA below average). -/
def recW1 : NormRow := ⟨some "W1", 98, 4, 4, some 0, some 4, 1000⟩

/-- Against `bench0`: neither branch 1 nor branch 3 holds. -/
def recW2 : NormRow := ⟨some "W2", 98, 7, 4, some 0, some 4, 1000⟩

/-- A generic record with clicks present. -/
def recW4 : NormRow := ⟨some "W4", 50, 5, 3, some 500, some 4, 1000⟩

/-- A generic record. -/
def recW9 : NormRow := ⟨some "W9", 1, 1, 1, some 1, some 1, 1⟩

/-- A record hitting branch 1 against `bench1`. -/
def recW10 : NormRow := ⟨some "W10", 1, 10, 1, some 0, some 1, 100⟩

/-- The 'Total: Account' row of `tC3`; its Conversions cell "--" fails
the total-row parse (which applies no cleaning). -/
def rowC3 : RawRow :=
  ⟨some "Total: Account", some "--", some "4.5", some "3.0%", some "900", some "2.0%", some "5000"⟩

/-- A table carrying an account-total row with one unparsable field. -/
def tC3 : RawTable :=
  ⟨true, true, [rowC3, ⟨some "Camp A", some "98", some "4", some "4%", some "500", some "4%", some "1000"⟩]⟩

/-- A table with one ordinary campaign row and one "Total" row. -/
def tC7 : RawTable :=
  ⟨true, true, [⟨some "Camp A", some "98", some "4", some "4%", some "500", some "4%", some "1000"⟩,
    ⟨some "Total: Search", some "200", some "4", some "4%", some "900", some "4%", some "2000"⟩]⟩

/-- The normalized form of `tC7`'s surviving row. -/
def rW7 : NormRow := ⟨some "Camp A", 98, 4, 4, some 500, some 4, 1000⟩

/-- A table whose header lacks the Campaign column. -/
def tC8 : RawTable := ⟨false, true, []⟩

/-! Helper lemmas shared by the claim theorems. -/

/-- Every branch of the classifier carries the same expected-conversions
value. -/
theorem getRecommendation_expected (hasClicks : Bool) (b : Benchmark) (r : NormRow) :
    (getRecommendation hasClicks b r).expectedConversions =
      expectedConv hasClicks r.clicks b.avgConvRate := by
  unfold getRecommendation
  split_ifs <;> rfl

/-- Rounding zero gives zero. -/
theorem round2_zero : round2 0 = 0 := by decide

/-- `toNorm` preserves the campaign field. -/
theorem toNorm_campaign (c : CleanRow) (r : NormRow) (h : toNorm c = some r) :
    r.campaign = c.campaign := by
  unfold toNorm at h
  rcases c with ⟨camp, conv, cpa, ctr, clicks, rate, budget⟩
  cases conv <;> cases cpa <;> cases ctr <;> cases budget <;> simp_all
  subst h
  rfl

/-- `toNorm` succeeds exactly on rows passing the mandatory-metric test. -/
theorem toNorm_isSome_eq (c : CleanRow) : (toNorm c).isSome = mandatoryOk c := by
  rcases c with ⟨camp, conv, cpa, ctr, clicks, rate, budget⟩
  cases conv <;> cases cpa <;> cases ctr <;> cases budget <;>
    simp [toNorm, mandatoryOk]

/-- The length of a `filterMap` counts the elements where `f` succeeds. -/
theorem length_filterMap_countP {α β : Type} (f : α → Option β) (l : List α) :
    (l.filterMap f).length = l.countP (fun a => (f a).isSome) := by
  induction l with
  | nil => rfl
  | cons a l ih =>
      rw [List.filterMap_cons, List.countP_cons]
      cases h : f a <;> simp [h, ih]

/-- The number of cleaned rows dropped by the mandatory-metric filter is
the count of rows failing that filter. -/
theorem dropCount_eq_countP (l : List CleanRow) :
    l.length - (l.filterMap toNorm).length = l.countP (fun c => !(mandatoryOk c)) := by
  induction l with
  | nil => rfl
  | cons a l ih =>
      have hle : (l.filterMap toNorm).length ≤ l.length := List.length_filterMap_le toNorm l
      rw [List.filterMap_cons, List.countP_cons]
      cases h : toNorm a with
      | none =>
          have hm : mandatoryOk a = false := by rw [← toNorm_isSome_eq, h]; rfl
          simp [hm]
          omega
      | some r =>
          have hm : mandatoryOk a = true := by rw [← toNorm_isSome_eq, h]; rfl
          simp [hm]
          omega

/-! The claim theorems. -/

/-- Claim C6 (confirmed): every Normalizer output row carries the four
mandatory metrics (packaging succeeds exactly on rows passing the
mandatory-metric test, and the output is the filter-map of that test over
the cleaned rows), and the reported drop count equals exactly the number
of cleaned rows failing the mandatory-metric test. -/
theorem C6_normalizer_invariant (t : RawTable) :
    (∀ c : CleanRow, (toNorm c).isSome = mandatoryOk c) ∧
    (normalize t).1 =
      ((t.rows.filter (fun r => !campaignContainsTotal r.campaign)).map
        (cleanRow t.hasClicks)).filterMap toNorm ∧
    (normalize t).2 =
      ((t.rows.filter (fun r => !campaignContainsTotal r.campaign)).map
        (cleanRow t.hasClicks)).countP (fun c => !(mandatoryOk c)) := by
  exact ⟨toNorm_isSome_eq, rfl, dropCount_eq_countP _⟩

/-- Claim C7 (confirmed): no record whose campaign name contains the
substring "Total" (case-sensitive) survives normalization. -/
theorem C7_total_rows_excluded (t : RawTable) (r : NormRow)
    (hr : r ∈ (normalize t).1) (s : String) (hs : r.campaign = some s) :
    strContains s "Total" = false := by
  have hr' : r ∈ ((t.rows.filter (fun x => !campaignContainsTotal x.campaign)).map
      (cleanRow t.hasClicks)).filterMap toNorm := hr
  rcases List.mem_filterMap.mp hr' with ⟨c, hc, hcr⟩
  rcases List.mem_map.mp hc with ⟨raw, hraw, hclean⟩
  have hcamp : r.campaign = c.campaign := toNorm_campaign c r hcr
  have hcc : c.campaign = raw.campaign := by rw [← hclean]; rfl
  have hnot : campaignContainsTotal raw.campaign = false := by
    have := (List.mem_filter.mp hraw).2
    simpa using this
  rw [← hcc, ← hcamp, hs] at hnot
  simpa [campaignContainsTotal] using hnot

/-- Claim C8 (confirmed): when the Campaign column is absent from the
input schema, the run surfaces a single error and produces no output. -/
theorem C8_missing_campaign_fatal (t : RawTable) (h : t.hasCampaign = false) :
    processFile t = Except.error campaignKeyError ∧
      ∀ out, processFile t ≠ Except.ok out := by
  have h1 : processFile t = Except.error campaignKeyError := by
    simp [processFile, h]
  exact ⟨h1, fun out hout => by rw [h1] at hout; cases hout⟩

/-- Claim C9 (confirmed): the classifier is a deterministic function of
the record and the benchmark — equal inputs yield equal outputs. -/
theorem C9_classifier_deterministic (hasClicks : Bool) (b b' : Benchmark)
    (r r' : NormRow) (hb : b = b') (hr : r = r') :
    getRecommendation hasClicks b r = getRecommendation hasClicks b' r' := by
  subst hb
  subst hr
  rfl

/-- Claim C10 (confirmed): the action label is one of exactly three
values, and the action determines the budget multiplier — Decrease pairs
with × 0.8, Slight Increase with × 1.1, Increase with × 1.2, each rounded
to two decimals. -/
theorem C10_action_determines_multiplier (hasClicks : Bool) (b : Benchmark) (r : NormRow) :
    ((getRecommendation hasClicks b r).action = "🟥 Decrease Budget" ∨
      (getRecommendation hasClicks b r).action = "🟨 Slight Increase" ∨
      (getRecommendation hasClicks b r).action = "🟩 Increase Budget") ∧
    ((getRecommendation hasClicks b r).action = "🟥 Decrease Budget" →
      (getRecommendation hasClicks b r).suggestedBudget = round2 (r.budget * (8 / 10))) ∧
    ((getRecommendation hasClicks b r).action = "🟨 Slight Increase" →
      (getRecommendation hasClicks b r).suggestedBudget = round2 (r.budget * (11 / 10))) ∧
    ((getRecommendation hasClicks b r).action = "🟩 Increase Budget" →
      (getRecommendation hasClicks b r).suggestedBudget = round2 (r.budget * (12 / 10))) := by
  unfold getRecommendation
  split_ifs <;>
    refine ⟨?_, ?_, ?_, ?_⟩ <;>
    first
      | (left; rfl)
      | (right; left; rfl)
      | (right; right; rfl)
      | (intro h; rfl)
      | (intro h; simp at h)

/-- Claim C1 counterexample: a record with conversions 98 against
average 100 (relative deviation 0.02 ≤ 0.05) that also satisfies branch
1's raw conditions is routed to branch 1, not branch 2 — its reason is
none of the three branch-2 reasons. -/
theorem C1_near_average_cex :
    nearAvgTest recC1.conversions bench1.avgConversions = true ∧
    branch1Cond bench1 recC1 = true ∧
    (getRecommendation true bench1 recC1).reason = "Underperforming on all key metrics" ∧
    (getRecommendation true bench1 recC1).reason ∉
      (["Avg conversions, high cost, low CTR", "Avg conversions, good CTR may drive gains",
        "Near-average performance with inefficiencies"] : List String) := by
  refine ⟨by decide, by decide, by decide, by decide⟩

/-- Claim C1 amended: a near-average record is routed to branch 2 (one of
the three branch-2 reasons) whenever branch 1's compound condition does
not hold — in particular even when branch 3's sub-conditions hold. -/
theorem C1_branch2_priority (hasClicks : Bool) (b : Benchmark) (r : NormRow)
    (hnear : nearAvgTest r.conversions b.avgConversions = true)
    (h1 : branch1Cond b r = false) :
    (getRecommendation hasClicks b r).reason = "Avg conversions, high cost, low CTR" ∨
    (getRecommendation hasClicks b r).reason = "Avg conversions, good CTR may drive gains" ∨
    (getRecommendation hasClicks b r).reason = "Near-average performance with inefficiencies" := by
  unfold getRecommendation
  simp only [h1, hnear, Bool.false_eq_true, if_false, if_true]
  split_ifs <;> simp

/-- Witness for the amended C1 at a concrete near-average record failing
branch 1. -/
theorem C1_branch2_priority_witness :
    (getRecommendation true bench1 recW1).reason = "Avg conversions, high cost, low CTR" ∨
    (getRecommendation true bench1 recW1).reason = "Avg conversions, good CTR may drive gains" ∨
    (getRecommendation true bench1 recW1).reason = "Near-average performance with inefficiencies" :=
  C1_branch2_priority true bench1 recW1 (by decide) (by decide)

/-- Claim C2 counterexample: with a zero average-conversions benchmark, a
record matching branch 3's conditions gets the Increase action, not the
fallback branch 4 the claim predicts. -/
theorem C2_zero_benchmark_cex :
    bench0.avgConversions = some 0 ∧
    (getRecommendation true bench0 recC2).reason ≠ "Performance not clearly above average" ∧
    (getRecommendation true bench0 recC2).action ≠ "🟥 Decrease Budget" ∧
    (getRecommendation true bench0 recC2).reason = "High conversions, low cost, high CTR" := by
  refine ⟨rfl, by decide, by decide, by decide⟩

/-- Claim C2 amended: when the average-conversions benchmark is zero, the
relative-deviation test evaluates false (no division error in the
embedding, matching numpy's non-raising inf/nan), so branch 2 never
fires; a record matching neither branch 1 nor branch 3 falls to the
fallback branch 4 with the Decrease action and × 0.8 budget. -/
theorem C2_zero_benchmark (hasClicks : Bool) (b : Benchmark) (r : NormRow)
    (h0 : b.avgConversions = some 0) :
    nearAvgTest r.conversions b.avgConversions = false ∧
    (branch1Cond b r = false → branch3Cond b r = false →
      (getRecommendation hasClicks b r).action = "🟥 Decrease Budget" ∧
      (getRecommendation hasClicks b r).reason = "Performance not clearly above average" ∧
      (getRecommendation hasClicks b r).suggestedBudget = round2 (r.budget * (8 / 10))) := by
  have hnear : nearAvgTest r.conversions b.avgConversions = false := by
    rw [h0]
    simp [nearAvgTest]
  refine ⟨hnear, fun h1 h3 => ?_⟩
  unfold getRecommendation
  rw [h1, hnear, h3]
  exact ⟨rfl, rfl, rfl⟩

/-- Witness for the amended C2 at a concrete record matching neither
branch 1 nor branch 3. -/
theorem C2_zero_benchmark_witness :
    nearAvgTest recW2.conversions bench0.avgConversions = false ∧
    (getRecommendation true bench0 recW2).reason = "Performance not clearly above average" :=
  ⟨(C2_zero_benchmark true bench0 recW2 rfl).1,
   ((C2_zero_benchmark true bench0 recW2 rfl).2 (by decide) (by decide)).2.1⟩

/-- Claim C3 (confirmed): when a raw row with campaign exactly
'Total: Account' exists, the benchmark is that (first such) row's parsed
values — with a parse failure yielding a missing value, not a fallback —
and when no such row exists the benchmark is the column means over the
normalized records. -/
theorem C3_benchmark_resolution (t : RawTable) (normed : List NormRow) :
    (∀ row, findTotalRow t.rows = some row →
      row.campaign = some "Total: Account" ∧
      resolveBenchmark t normed = benchmarkOfTotalRow row ∧
      (parseRawCell row.conversions = none →
        (resolveBenchmark t normed).avgConversions = none)) ∧
    ((∃ row ∈ t.rows, row.campaign = some "Total: Account") →
      ∃ row, findTotalRow t.rows = some row) ∧
    ((∀ row ∈ t.rows, row.campaign ≠ some "Total: Account") →
      resolveBenchmark t normed = benchmarkOfAverages normed) := by
  refine ⟨?_, ?_, ?_⟩
  · intro row h
    have hres : resolveBenchmark t normed = benchmarkOfTotalRow row := by
      unfold resolveBenchmark
      rw [h]
    have hmem : row ∈ t.rows.filter (fun x => decide (x.campaign = some "Total: Account")) :=
      List.mem_of_mem_head? h
    have hcamp : row.campaign = some "Total: Account" := by
      have := (List.mem_filter.mp hmem).2
      simpa using this
    refine ⟨hcamp, hres, fun hparse => ?_⟩
    rw [hres]
    unfold benchmarkOfTotalRow
    rw [← hparse]
  · rintro ⟨row, hrow, hcamp⟩
    have hmem : row ∈ t.rows.filter (fun x => decide (x.campaign = some "Total: Account")) :=
      List.mem_filter.mpr ⟨hrow, by simp [hcamp]⟩
    cases hl : t.rows.filter (fun x => decide (x.campaign = some "Total: Account")) with
    | nil => rw [hl] at hmem; cases hmem
    | cons a as => exact ⟨a, by unfold findTotalRow; rw [hl]; rfl⟩
  · intro hnone
    have hl : t.rows.filter (fun x => decide (x.campaign = some "Total: Account")) = [] :=
      List.filter_eq_nil_iff.mpr (fun a ha => by simpa using hnone a ha)
    unfold resolveBenchmark findTotalRow
    rw [hl]
    rfl

/-- Witness for C3 at a concrete table whose total row has an unparsable
Conversions cell: the benchmark comes from that row, with a missing
average-conversions value and no fallback to averaging. -/
theorem C3_benchmark_resolution_witness :
    resolveBenchmark tC3 [] = benchmarkOfTotalRow rowC3 ∧
    (resolveBenchmark tC3 []).avgConversions = none :=
  ⟨((C3_benchmark_resolution tC3 []).1 rowC3 (by decide)).2.1,
   ((C3_benchmark_resolution tC3 []).1 rowC3 (by decide)).2.2 (by decide)⟩

/-- Claim C4 counterexample: with budget 5/32, branch 1's suggested
budget is round(0.125, 2) = 0.12 under the code's rounding, while
half-up rounding of the same product gives 0.13. -/
theorem C4_half_up_cex :
    (getRecommendation true bench1 recC4).action = "🟥 Decrease Budget" ∧
    (getRecommendation true bench1 recC4).suggestedBudget = 12 / 100 ∧
    round2up (recC4.budget * (8 / 10)) = 13 / 100 ∧
    (getRecommendation true bench1 recC4).suggestedBudget ≠ round2up (recC4.budget * (8 / 10)) := by
  refine ⟨by decide, by decide, by decide, by decide⟩

/-- Claim C4 amended: suggested budget is always the raw multiplication
(× 0.8, × 1.1 or × 1.2) rounded to two decimals half-to-even, and when
clicks and the benchmark conversion rate are available, expected
conversions is clicks × rate rounded to two decimals half-to-even. -/
theorem C4_rounding (hasClicks : Bool) (b : Benchmark) (r : NormRow) :
    ((getRecommendation hasClicks b r).suggestedBudget = round2 (r.budget * (8 / 10)) ∨
     (getRecommendation hasClicks b r).suggestedBudget = round2 (r.budget * (11 / 10)) ∨
     (getRecommendation hasClicks b r).suggestedBudget = round2 (r.budget * (12 / 10))) ∧
    (∀ c q, clicksValue hasClicks r.clicks = some c → b.avgConvRate = some q →
      (getRecommendation hasClicks b r).expectedConversions = some (round2 (c * q))) := by
  constructor
  · unfold getRecommendation
    split_ifs <;> first | (left; rfl) | (right; left; rfl) | (right; right; rfl)
  · intro c q hc hq
    rw [getRecommendation_expected]
    unfold expectedConv
    rw [hc, hq]

/-- Witness for the amended C4 at a concrete record with clicks 500 and
rate 2%. -/
theorem C4_rounding_witness :
    (getRecommendation true bench1 recW4).expectedConversions =
      some (round2 (500 * (2 / 100))) :=
  (C4_rounding true bench1 recW4).2 500 (2 / 100) rfl rfl

/-- Claim C5 counterexample: a record whose Clicks cell is missing (NaN)
produces a missing expected-conversions value, not 0 — `nan or 0` keeps
the NaN because NaN is truthy in Python. -/
theorem C5_missing_clicks_cex :
    recC5.clicks = none ∧
    bench1.avgConvRate = some (2 / 100) ∧
    (getRecommendation true bench1 recC5).expectedConversions = none ∧
    (getRecommendation true bench1 recC5).expectedConversions ≠ some 0 := by
  refine ⟨rfl, rfl, by decide, by decide⟩

/-- Claim C5 amended: when the Clicks column is absent, classification
treats clicks as zero and expected conversions is 0 (benchmark rate
present); a missing Clicks cell instead propagates as a missing expected
conversions; and the mandatory-metric retention test never depends on
the clicks cell. -/
theorem C5_clicks_handling (b : Benchmark) (r : NormRow) (q : ℚ)
    (hq : b.avgConvRate = some q) :
    (getRecommendation false b r).expectedConversions = some 0 ∧
    (r.clicks = none → (getRecommendation true b r).expectedConversions = none) ∧
    (∀ (hasClicks : Bool) (raw : RawRow) (cell : Option String),
      mandatoryOk (cleanRow hasClicks raw) =
        mandatoryOk (cleanRow hasClicks { raw with clicks := cell })) := by
  refine ⟨?_, ?_, ?_⟩
  · rw [getRecommendation_expected]
    unfold expectedConv clicksValue
    rw [hq]
    simp [round2_zero]
  · intro hnone
    rw [getRecommendation_expected]
    unfold expectedConv clicksValue
    rw [hnone, hq]
    rfl
  · intro hasClicks raw cell
    rfl

/-- Witness for the amended C5: column-absent clicks give expected
conversions 0; a NaN clicks cell gives a missing value. -/
theorem C5_clicks_handling_witness :
    (getRecommendation false bench1 recC5).expectedConversions = some 0 ∧
    (getRecommendation true bench1 recC5).expectedConversions = none :=
  ⟨(C5_clicks_handling bench1 recC5 (2 / 100) rfl).1,
   (C5_clicks_handling bench1 recC5 (2 / 100) rfl).2.1 rfl⟩

/-- Witness for C7 at a concrete table: the surviving row's campaign name
does not contain "Total". -/
theorem C7_total_rows_excluded_witness :
    rW7 ∈ (normalize tC7).1 ∧ strContains "Camp A" "Total" = false :=
  ⟨by decide, C7_total_rows_excluded tC7 rW7 (by decide) "Camp A" rfl⟩

/-- Witness for C8 at a concrete Campaign-less table. -/
theorem C8_missing_campaign_fatal_witness :
    processFile tC8 = Except.error campaignKeyError :=
  (C8_missing_campaign_fatal tC8 rfl).1

/-- Witness for C9 at concrete inputs. -/
theorem C9_classifier_deterministic_witness :
    getRecommendation true bench1 recW9 = getRecommendation true bench1 recW9 :=
  C9_classifier_deterministic true bench1 bench1 recW9 recW9 rfl rfl

/-- Witness for C10 at a concrete branch-1 record: the Decrease action
pairs with the × 0.8 multiplier. -/
theorem C10_action_determines_multiplier_witness :
    (getRecommendation true bench1 recW10).suggestedBudget =
      round2 (recW10.budget * (8 / 10)) :=
  (C10_action_determines_multiplier true bench1 recW10).2.1 (by decide)

end

end CampaignApp
